import Mathlib

/-!
Verification of the fio_kv_helper key/value glue library
(src/helper/src/main/fio_kv_helper.cpp, fio_kv_helper.h, and the JNI
binding com_turn_fusionio_FusionIOAPI.cpp) against its natural-language
specification.

The C code is shallowly embedded: each helper function becomes a Lean
function over explicit structures mirroring the C structs.  Calls into
the vendor SDK (the nvm_kv_* primitives, which are external to this
repository) are modelled as function parameters supplied to the
embedding, so theorems quantify over every possible device behaviour;
where a claim depends on documented vendor behaviour that is absent
from the sources, the model is marked as modelled from the spec.
Process-aborting assert() checks are modelled by returning none
(Option), so a none result means the C program aborted before reaching
the device.
-/

/-- FIO_SECTOR_ALIGNMENT from fio_kv_helper.h line 36. -/
def FIO_SECTOR_ALIGNMENT : Nat := 512

/-- NVM_KV_MAX_POOLS, vendor SDK constant; fio_kv_helper.h line 37 records
its value as 1024. -/
def NVM_KV_MAX_POOLS : Nat := 1024

/-- NVM_KV_MAX_KEY_SIZE, vendor SDK constant (maximum key length in bytes).
Its numeric value is not recorded in the sources; no theorem below depends
on the exact value, only on the bound being checked. -/
def NVM_KV_MAX_KEY_SIZE : Nat := 128

/-- FIO_KV_API_VERSION, the compile-time version constant referenced by
fio_kv_open in fio_kv_helper.cpp line 89.  Its defining header revision is
absent from the sources; no theorem depends on its value. -/
def FIO_KV_API_VERSION : Nat := 0

/-- KV_ARBITRARY_EXPIRY, vendor SDK expiry-mode enumerator (the expiry
modes are disabled, arbitrary, global; arbitrary is ordinal 1). -/
def KV_ARBITRARY_EXPIRY : Nat := 1

/-- POSIX open(2) flag O_RDWR. -/
def O_RDWR : Nat := 2

/-- POSIX open(2) flag O_CREAT (octal 100). -/
def O_CREAT : Nat := 64

/-- Linux open(2) flag O_DIRECT (octal 40000). -/
def O_DIRECT : Nat := 16384

/-- Linux open(2) flag O_LARGEFILE (octal 100000). -/
def O_LARGEFILE : Nat := 32768

/-- fio_kv_store_t from fio_kv_helper.h lines 44-48: path, file
descriptor fd, and device key/value handle kv. -/
structure FioKvStore where
  path : String
  fd : Int
  kv : Int
deriving DecidableEq, Repr

/-- fio_kv_pool_t from fio_kv_helper.h lines 50-54: owning store,
device-assigned pool id, and name tag. -/
structure FioKvPool where
  store : FioKvStore
  id : Int
  tag : String
deriving DecidableEq, Repr

/-- nvm_kv_key_info_t, the key/value metadata record (pool id, key
length, value length, expiry, generation count), as marshalled by the
JNI layer in com_turn_fusionio_FusionIOAPI.cpp lines 245-257. -/
structure KeyInfo where
  pool_id : Int
  key_len : Nat
  value_len : Nat
  expiry : Nat
  gen_count : Nat
deriving DecidableEq, Repr

/-- fio_kv_key_t from fio_kv_helper.h lines 56-59.  The bytes pointer is
an Option: none models a NULL pointer. -/
structure FioKvKey where
  length : Nat
  bytes : Option (List Nat)
deriving DecidableEq, Repr

/-- fio_kv_value_t from fio_kv_helper.h lines 61-64.  data and info are
pointers; none models NULL. -/
structure FioKvValue where
  data : Option (List Nat)
  info : Option KeyInfo
deriving DecidableEq, Repr

/-- The open(2) flag word computed by fio_kv_open (fio_kv_helper.cpp
lines 75-82): O_RDWR with O_DIRECT always, plus O_LARGEFILE and O_CREAT
when the path does not start with /dev. -/
def fio_kv_open_flags (path : String) : Nat :=
  if path.take 4 = "/dev" then O_RDWR ||| O_DIRECT
  else O_RDWR ||| O_DIRECT ||| O_LARGEFILE ||| O_CREAT

/-- Shallow embedding of fio_kv_open from fio_kv_helper.cpp lines 73-96.
osOpen models the POSIX open(2) call (given path and flags it returns the
new file descriptor, negative on failure); nvmOpen models nvm_kv_open
(given fd, version, max pools and expiry mode it returns the device
handle, non-positive on failure, in particular on a version mismatch with
the version recorded on the device).  The function mutates the store in
place exactly as the C code does: fd is assigned the open(2) result
before it is tested, and kv is assigned the nvm_kv_open result before it
is tested; neither field is reset on the failure paths. -/
def fio_kv_open (osOpen : String → Nat → Int)
    (nvmOpen : Int → Nat → Nat → Nat → Int)
    (store : FioKvStore) : Bool × FioKvStore :=
  let store1 : FioKvStore :=
    { store with fd := osOpen store.path (fio_kv_open_flags store.path) }
  if store1.fd < 0 then (false, store1)
  else
    let store2 : FioKvStore :=
      { store1 with
        kv := nvmOpen store1.fd FIO_KV_API_VERSION NVM_KV_MAX_POOLS
                KV_ARBITRARY_EXPIRY }
    if store2.kv ≤ 0 then (false, store2)
    else (true, store2)

/-- Result of fio_kv_close: the updated store, plus the descriptor that
was passed to close(2), if the syscall was made at all. -/
structure CloseResult where
  store : FioKvStore
  closedFd : Option Int
deriving DecidableEq, Repr

/-- Shallow embedding of fio_kv_close from fio_kv_helper.cpp lines
107-118: close(2) is called only when fd is nonzero (C truthiness of
store->fd), then fd and kv are unconditionally zeroed. -/
def fio_kv_close (store : FioKvStore) : CloseResult :=
  { store := { store with fd := 0, kv := 0 },
    closedFd := if store.fd ≠ 0 then some store.fd else none }

/-- Shallow embedding of fio_kv_destroy from fio_kv_helper.cpp lines
130-136: the device destroy (nvm_kv_destroy, modelled by devDestroy
returning its int status) is invoked on the current kv handle, then the
store is closed, and the function returns whether the device reported
status 0. -/
def fio_kv_destroy (devDestroy : Int → Int) (store : FioKvStore) :
    Bool × CloseResult :=
  (decide (devDestroy store.kv = 0), fio_kv_close store)

/-- The byte count fio_kv_alloc requests from posix_memalign
(fio_kv_helper.cpp lines 200-202): length + 512 - (length mod 512),
computed on the const uint32_t parameter in unsigned 32-bit arithmetic,
hence the explicit mod 2 ^ 32.  For a representable length (below
2 ^ 32) the exact value of the expression is at most 2 ^ 32, and it
reaches 2 ^ 32 exactly when length is at least 2 ^ 32 - 512, in which
case the C computation wraps to a request of 0 bytes. -/
def fio_kv_alloc_size (length : Nat) : Nat :=
  (length + FIO_SECTOR_ALIGNMENT - length % FIO_SECTOR_ALIGNMENT) % 2 ^ 32

/-- Shallow embedding of fio_kv_alloc from fio_kv_helper.cpp lines
196-205.  memalign models posix_memalign: given alignment and size it
returns the allocated buffer, or none on allocation failure.  The C code
does not inspect the posix_memalign return status and returns the
pointer unconditionally. -/
def fio_kv_alloc (memalign : Nat → Nat → Option (List Nat))
    (length : Nat) : Option (List Nat) :=
  memalign FIO_SECTOR_ALIGNMENT (fio_kv_alloc_size length)

/-- The argument record of a single nvm_kv_put device call, as assembled
by fio_kv_put (fio_kv_helper.cpp lines 307-310): kv handle, pool id, key
bytes and length, value bytes and declared length, expiry, the replace
flag, and the generation-count argument. -/
structure NvmKvPutCall where
  kv : Int
  pool_id : Int
  key : List Nat
  key_len : Nat
  value : List Nat
  value_len : Nat
  expiry : Nat
  replace : Bool
  gen_count : Nat
deriving DecidableEq, Repr

/-- Shallow embedding of fio_kv_put from fio_kv_helper.cpp lines
294-311.  The asserts (pool id bounds, key length bounds, non-null key
bytes, value data and info) are modelled by the none result (process
abort); on success the function returns the exact argument record handed
to nvm_kv_put: value_len and expiry come from value.info, replace is
true, and the gen_count argument is the literal 0 from the source. -/
def fio_kv_put (pool : FioKvPool) (key : FioKvKey) (value : FioKvValue) :
    Option NvmKvPutCall :=
  if 0 ≤ pool.id ∧ pool.id < (NVM_KV_MAX_POOLS : Int) ∧
      1 ≤ key.length ∧ key.length ≤ NVM_KV_MAX_KEY_SIZE then
    match key.bytes with
    | none => none
    | some kb =>
      match value.data, value.info with
      | some vd, some info =>
        some { kv := pool.store.kv, pool_id := pool.id, key := kb,
               key_len := key.length, value := vd,
               value_len := info.value_len, expiry := info.expiry,
               replace := true, gen_count := 0 }
      | _, _ => none
  else none

/-- nvm_kv_iovec_t, one entry of the batch array assembled by
_fio_kv_prepare_batch (fio_kv_helper.cpp lines 395-407).  The value
fields stay at their calloc zero/null state when no values array is
supplied; for batch put they are filled from the value and its info, and
replace is set to 1 (true). -/
structure NvmKvIovec where
  key : List Nat
  key_len : Nat
  value : Option (List Nat)
  value_len : Nat
  expiry : Nat
  gen_count : Nat
  replace : Bool
deriving DecidableEq, Repr

/-- One iteration of the _fio_kv_prepare_batch loop body
(fio_kv_helper.cpp lines 390-409) for the batch-put case where a values
array is present: the asserts on the key (non-null, length within
1..NVM_KV_MAX_KEY_SIZE, non-null bytes) and on the value (non-null,
non-null data and info) become the none result; otherwise the populated
iovec is returned with value_len, expiry and gen_count taken from the
value info and replace set. -/
def _fio_kv_prepare_iovec :
    Option FioKvKey → Option FioKvValue → Option NvmKvIovec
  | none, _ => none
  | some _, none => none
  | some k, some v =>
    if 1 ≤ k.length ∧ k.length ≤ NVM_KV_MAX_KEY_SIZE then
      match k.bytes, v.data, v.info with
      | some kb, some vd, some info =>
        some { key := kb, key_len := k.length, value := some vd,
               value_len := info.value_len, expiry := info.expiry,
               gen_count := info.gen_count, replace := true }
      | _, _, _ => none
    else none

/-- The _fio_kv_prepare_batch loop over the two parallel count-element
arrays (batch-put case, values array present).  The C loop indexes both
arrays by the same i < count; here the arrays are lists traversed in
lockstep, and a length mismatch (an out-of-bounds access in C) is
modelled as none. -/
def _fio_kv_prepare_entries :
    List (Option FioKvKey) → List (Option FioKvValue) →
      Option (List NvmKvIovec)
  | [], [] => some []
  | okey :: ks, oval :: vs =>
    match _fio_kv_prepare_iovec okey oval with
    | none => none
    | some io =>
      match _fio_kv_prepare_entries ks vs with
      | none => none
      | some rest => some (io :: rest)
  | [], _ :: _ => none
  | _ :: _, [] => none

/-- Shallow embedding of _fio_kv_prepare_batch from fio_kv_helper.cpp
lines 381-412 (batch-put case): the count > 0 assert becomes none on an
empty key list, then every entry is validated and converted in input
order. -/
def _fio_kv_prepare_batch (keys : List (Option FioKvKey))
    (values : List (Option FioKvValue)) : Option (List NvmKvIovec) :=
  if keys.length = 0 then none
  else _fio_kv_prepare_entries keys values

/-- Shallow embedding of fio_kv_batch_put from fio_kv_helper.cpp lines
426-443.  dev models nvm_kv_batch_put: it receives the prepared iovec
array and returns its int status together with the iovec array as the
device leaves it (the device may update entries in place).  The C code
frees that array without copying anything back into the value
structures, so the second component of the result is the caller-visible
values array after the call: it is the input array, untouched. -/
def fio_kv_batch_put (dev : List NvmKvIovec → Int × List NvmKvIovec)
    (pool : FioKvPool) (keys : List (Option FioKvKey))
    (values : List (Option FioKvValue)) :
    Option (Bool × List (Option FioKvValue)) :=
  if 0 ≤ pool.id ∧ pool.id < (NVM_KV_MAX_POOLS : Int) then
    match _fio_kv_prepare_batch keys values with
    | none => none
    | some v => some (decide ((dev v).1 = 0), values)
  else none

/-- A key array entry passing the per-entry validation of
_fio_kv_prepare_batch: non-null, length within bounds, non-null bytes. -/
def fio_kv_key_ok (okey : Option FioKvKey) : Prop :=
  ∃ k kb, okey = some k ∧ k.bytes = some kb ∧
    1 ≤ k.length ∧ k.length ≤ NVM_KV_MAX_KEY_SIZE

/-- A value array entry passing the per-entry validation of
_fio_kv_prepare_batch: non-null, with non-null data and info. -/
def fio_kv_value_ok (oval : Option FioKvValue) : Prop :=
  ∃ v vd info, oval = some v ∧ v.data = some vd ∧ v.info = some info

/-- The scratch nvm_kv_key_info_t record fio_kv_exists substitutes for a
NULL caller info pointer (the local _info variable at fio_kv_helper.cpp
line 338; its contents are uninitialised and never read before the
device overwrites them, so the zero record stands in). -/
def scratch_info : KeyInfo := ⟨0, 0, 0, 0, 0⟩

/-- Modelled from the spec: nvm_kv_exists is vendor SDK code absent from
this repository.  Per the spec and the TODO comment at fio_kv_helper.cpp
lines 336-337, the call fails (segfaults) when handed a NULL
nvm_kv_key_info_t pointer, which the none branch models; otherwise it
returns the device tri-state int (1 present, 0 absent, -1 error,
supplied here by devres as a function of handle, pool id and key) and
writes the entry metadata through the pointer. -/
def nvm_kv_exists_model (devres : Int → Int → List Nat → Nat → Int × KeyInfo)
    (kv : Int) (pool_id : Int) (kb : List Nat) (klen : Nat)
    (infoPtr : Option KeyInfo) : Option (Int × KeyInfo) :=
  match infoPtr with
  | none => none
  | some _ => some (devres kv pool_id kb klen)

/-- Shallow embedding of fio_kv_exists from fio_kv_helper.cpp lines
326-345.  The asserts become none; a NULL caller info pointer is
replaced by the local scratch record before the device call, exactly as
the C code does; the device tri-state int is returned unchanged, and
the second component is what the caller can observe through its own
info pointer afterwards (none when the caller passed none, since the
scratch record is a discarded local). -/
def fio_kv_exists (devres : Int → Int → List Nat → Nat → Int × KeyInfo)
    (pool : FioKvPool) (key : FioKvKey) (info : Option KeyInfo) :
    Option (Int × Option KeyInfo) :=
  if 0 ≤ pool.id ∧ pool.id < (NVM_KV_MAX_POOLS : Int) ∧
      1 ≤ key.length ∧ key.length ≤ NVM_KV_MAX_KEY_SIZE then
    match key.bytes with
    | none => none
    | some kb =>
      match nvm_kv_exists_model devres pool.store.kv pool.id kb key.length
          (some (info.getD scratch_info)) with
      | none => none
      | some (ret, written) =>
        some (ret, match info with
          | none => none
          | some _ => some written)
  else none

/-- Modelled from the spec: the device-side cursor state behind an
nvm_kv iterator id.  The vendor SDK holding the real cursor is absent
from this repository; per the spec the cursor walks the pool entries
one advance at a time, so the state is the list of entries not yet
visited. -/
structure IterState where
  remaining : List Nat
deriving DecidableEq, Repr

/-- Modelled from the spec: nvm_kv_next, the vendor SDK advance
primitive.  It returns status 0 and consumes one entry while entries
remain; once the cursor is exhausted it reports a nonzero status (no
current element) and leaves the cursor state untouched, rather than
erroring or invalidating the iterator. -/
def nvm_kv_next_model (it : IterState) : Int × IterState :=
  match it.remaining with
  | [] => (-1, it)
  | _ :: rest => (0, ⟨rest⟩)

/-- Shallow embedding of fio_kv_next from fio_kv_helper.cpp lines
472-480: the asserts (pool id bounds, non-negative iterator id) become
none, and the result is whether nvm_kv_next returned status 0.  The
device call receives only the store handle and the iterator id; the
pool id is not forwarded. -/
def fio_kv_next (pool : FioKvPool) (iterator : Int) (it : IterState) :
    Option (Bool × IterState) :=
  if 0 ≤ pool.id ∧ pool.id < (NVM_KV_MAX_POOLS : Int) ∧ 0 ≤ iterator then
    some (decide ((nvm_kv_next_model it).1 = 0), (nvm_kv_next_model it).2)
  else none

/-- A sequence of n + 1 further fio_kv_next calls on the same pool and
iterator, threading the cursor state, returning the outcome of the last
call. -/
def fio_kv_next_iter (pool : FioKvPool) (iterator : Int) :
    Nat → IterState → Option (Bool × IterState)
  | 0, it => fio_kv_next pool iterator it
  | n + 1, it =>
    match fio_kv_next pool iterator it with
    | none => none
    | some (_, it2) => fio_kv_next_iter pool iterator n it2

/-- C1 (counterexample): with a device whose nvm_kv_open returns handle 0
while the file open(2) succeeded with descriptor 5, fio_kv_open returns
false yet leaves fd = 5 in the store: the store does not read as closed,
refuting the claim that no partial state is retained. -/
theorem fio_kv_open_failure_retains_fd :
    (fio_kv_open (fun _ _ => 5) (fun _ _ _ _ => 0) ⟨"p", 0, 0⟩).1 = false ∧
    (fio_kv_open (fun _ _ => 5) (fun _ _ _ _ => 0) ⟨"p", 0, 0⟩).2.fd = 5 := by
  decide

/-- C1 (amended): whenever fio_kv_open returns false, either the file
open failed (fd holds the negative open(2) result and kv is unchanged
from before the call), or the file open succeeded and fd retains the
open descriptor (non-negative) while kv holds the non-positive device
handle; the store is never reset to the closed state on failure. -/
theorem fio_kv_open_failure_state (osOpen : String → Nat → Int)
    (nvmOpen : Int → Nat → Nat → Nat → Int) (store : FioKvStore)
    (h : (fio_kv_open osOpen nvmOpen store).1 = false) :
    ((fio_kv_open osOpen nvmOpen store).2.fd < 0 ∧
      (fio_kv_open osOpen nvmOpen store).2.fd =
        osOpen store.path (fio_kv_open_flags store.path) ∧
      (fio_kv_open osOpen nvmOpen store).2.kv = store.kv) ∨
    (0 ≤ (fio_kv_open osOpen nvmOpen store).2.fd ∧
      (fio_kv_open osOpen nvmOpen store).2.fd =
        osOpen store.path (fio_kv_open_flags store.path) ∧
      (fio_kv_open osOpen nvmOpen store).2.kv ≤ 0) := by
  unfold fio_kv_open at *
  by_cases h1 : osOpen store.path (fio_kv_open_flags store.path) < 0
  · simp [h1]
  · simp only [h1, if_false] at h ⊢
    by_cases h2 :
      nvmOpen (osOpen store.path (fio_kv_open_flags store.path))
        FIO_KV_API_VERSION NVM_KV_MAX_POOLS KV_ARBITRARY_EXPIRY ≤ 0
    · simp [h2]
      omega
    · simp [h2] at h

/-- C1 witness: the amended theorem applied at a concrete failing open. -/
theorem fio_kv_open_failure_state_witness :
    ((fio_kv_open (fun _ _ => 5) (fun _ _ _ _ => 0) ⟨"p", 0, 0⟩).2.fd < 0 ∧
      (fio_kv_open (fun _ _ => 5) (fun _ _ _ _ => 0) ⟨"p", 0, 0⟩).2.fd =
        (fun (_ : String) (_ : Nat) => (5 : Int)) "p" (fio_kv_open_flags "p") ∧
      (fio_kv_open (fun _ _ => 5) (fun _ _ _ _ => 0) ⟨"p", 0, 0⟩).2.kv = (0 : Int)) ∨
    (0 ≤ (fio_kv_open (fun _ _ => 5) (fun _ _ _ _ => 0) ⟨"p", 0, 0⟩).2.fd ∧
      (fio_kv_open (fun _ _ => 5) (fun _ _ _ _ => 0) ⟨"p", 0, 0⟩).2.fd =
        (fun (_ : String) (_ : Nat) => (5 : Int)) "p" (fio_kv_open_flags "p") ∧
      (fio_kv_open (fun _ _ => 5) (fun _ _ _ _ => 0) ⟨"p", 0, 0⟩).2.kv ≤ 0) :=
  fio_kv_open_failure_state (fun _ _ => 5) (fun _ _ _ _ => 0) ⟨"p", 0, 0⟩
    (by decide)

/-- C2 (code bug): the fio_kv_open defined in fio_kv_helper.cpp takes no
version parameter and always transmits the compile-time constant
FIO_KV_API_VERSION to nvm_kv_open.  First conjunct: the result depends on
the device only through its behaviour at version FIO_KV_API_VERSION, so
no caller-supplied version can reach the device.  Second conjunct: a
device whose recorded version is FIO_KV_API_VERSION + 1 (which the
caller supplies per the contract declared in fio_kv_helper.h lines
90-91) rejects the open even though the caller version matches the
recorded one. -/
theorem fio_kv_open_version_hardcoded :
    (∀ (osOpen : String → Nat → Int)
        (d1 d2 : Int → Nat → Nat → Nat → Int) (store : FioKvStore),
        (∀ fd mp e, d1 fd FIO_KV_API_VERSION mp e =
            d2 fd FIO_KV_API_VERSION mp e) →
        fio_kv_open osOpen d1 store = fio_kv_open osOpen d2 store) ∧
    (fio_kv_open (fun _ _ => 5)
        (fun _ v _ _ => if v = FIO_KV_API_VERSION + 1 then 7 else 0)
        ⟨"p", 0, 0⟩).1 = false := by
  constructor
  · intro osOpen d1 d2 store hagree
    unfold fio_kv_open
    simp only [hagree]
  · decide

/-- C2 witness: the first conjunct applied to two concrete devices that
agree at the constant version. -/
theorem fio_kv_open_version_hardcoded_witness :
    fio_kv_open (fun _ _ => 3) (fun _ v _ _ => (v : Int)) ⟨"q", 0, 0⟩ =
      fio_kv_open (fun _ _ => 3)
        (fun _ v _ _ => if v = FIO_KV_API_VERSION then (v : Int) else 99)
        ⟨"q", 0, 0⟩ :=
  fio_kv_open_version_hardcoded.1 (fun _ _ => 3) _ _ ⟨"q", 0, 0⟩
    (by intro fd mp e; simp)

/-- C3 (counterexample): a request of 512 bytes (already sector aligned)
makes fio_kv_alloc request 1024 bytes from posix_memalign, not 512, and
a zero-length request yields a valid 512-byte buffer (under a
posix_memalign that succeeds) instead of an allocation failure. -/
theorem fio_kv_alloc_rounding_cex :
    fio_kv_alloc_size 512 = 1024 ∧ (1024 : Nat) ≠ 512 ∧
    fio_kv_alloc (fun _ sz => some (List.replicate sz 0)) 0 =
      some (List.replicate 512 0) := by
  refine ⟨by decide, by decide, ?_⟩
  rfl

/-- C3 (amended): the size fio_kv_alloc requests from posix_memalign is
length + 512 - (length mod 512) in unsigned 32-bit arithmetic.  For
every length below 2 ^ 32 - 512 it is a multiple of the 512-byte sector
size, at least the requested length and at most one sector more; for a
length that is already a multiple of 512 (and small enough not to wrap,
including zero) it requests a full extra sector rather than exactly the
rounded-up length, and a zero-length request requests 512 bytes (a
valid buffer when allocation succeeds) rather than failing; for the
representable lengths of 2 ^ 32 - 512 and above (for example
0xFFFFFFFF) the arithmetic wraps and 0 bytes are requested. -/
theorem fio_kv_alloc_size_amended :
    (∀ length : Nat, length < 2 ^ 32 - FIO_SECTOR_ALIGNMENT →
        FIO_SECTOR_ALIGNMENT ∣ fio_kv_alloc_size length ∧
        length ≤ fio_kv_alloc_size length ∧
        fio_kv_alloc_size length ≤ length + FIO_SECTOR_ALIGNMENT) ∧
    (∀ k : Nat, FIO_SECTOR_ALIGNMENT * k + FIO_SECTOR_ALIGNMENT < 2 ^ 32 →
        fio_kv_alloc_size (FIO_SECTOR_ALIGNMENT * k) =
          FIO_SECTOR_ALIGNMENT * k + FIO_SECTOR_ALIGNMENT) ∧
    fio_kv_alloc_size 0 = FIO_SECTOR_ALIGNMENT ∧
    (∀ length : Nat, 2 ^ 32 - FIO_SECTOR_ALIGNMENT ≤ length →
        length < 2 ^ 32 → fio_kv_alloc_size length = 0) := by
  refine ⟨fun length h => ⟨⟨length / 512 + 1, ?_⟩, ?_, ?_⟩, fun k hk => ?_,
      ?_, fun length h1 h2 => ?_⟩ <;>
    simp only [fio_kv_alloc_size, FIO_SECTOR_ALIGNMENT] at * <;> omega

/-- C3 witness: the amended theorem applied at a concrete in-range
length, a concrete sector multiple, and the concrete wrapping length
0xFFFFFFFF. -/
theorem fio_kv_alloc_size_amended_witness :
    (FIO_SECTOR_ALIGNMENT ∣ fio_kv_alloc_size 512 ∧
      512 ≤ fio_kv_alloc_size 512 ∧
      fio_kv_alloc_size 512 ≤ 512 + FIO_SECTOR_ALIGNMENT) ∧
    fio_kv_alloc_size (FIO_SECTOR_ALIGNMENT * 3) =
      FIO_SECTOR_ALIGNMENT * 3 + FIO_SECTOR_ALIGNMENT ∧
    fio_kv_alloc_size (2 ^ 32 - 1) = 0 :=
  ⟨fio_kv_alloc_size_amended.1 512 (by decide),
   fio_kv_alloc_size_amended.2.1 3 (by decide),
   fio_kv_alloc_size_amended.2.2.2 (2 ^ 32 - 1) (by decide) (by decide)⟩

/-- C8: fio_kv_close always leaves fd and kv zero, and fio_kv_destroy
invokes the device destroy on the pre-close kv handle, then closes the
store (fd and kv end up zero regardless of the destroy status), and
returns true exactly when the device destroy reported status 0. -/
theorem fio_kv_close_destroy_clear_fields :
    (∀ store : FioKvStore,
        (fio_kv_close store).store.fd = 0 ∧
        (fio_kv_close store).store.kv = 0) ∧
    (∀ (devDestroy : Int → Int) (store : FioKvStore),
        (fio_kv_destroy devDestroy store).2.store.fd = 0 ∧
        (fio_kv_destroy devDestroy store).2.store.kv = 0 ∧
        ((fio_kv_destroy devDestroy store).1 = true ↔
          devDestroy store.kv = 0)) := by
  refine ⟨fun store => ⟨rfl, rfl⟩, fun devDestroy store => ⟨rfl, rfl, ?_⟩⟩
  simp [fio_kv_destroy]

/-- C10: fio_kv_close is idempotent on an already-closed store: after a
first close has zeroed fd, a second close performs no close(2) syscall
(closedFd = none) and leaves the fields unchanged at zero. -/
theorem fio_kv_close_idempotent :
    ∀ store : FioKvStore,
      (fio_kv_close (fio_kv_close store).store).closedFd = none ∧
      (fio_kv_close (fio_kv_close store).store).store =
        (fio_kv_close store).store ∧
      (fio_kv_close (fio_kv_close store).store).store.fd = 0 ∧
      (fio_kv_close (fio_kv_close store).store).store.kv = 0 := by
  intro store
  simp [fio_kv_close]

/-- C4 (counterexample): a put whose value.info carries generation count
7 produces a device call whose gen_count argument is 0: fio_kv_put does
not take the generation count from value.info. -/
theorem fio_kv_put_gen_count_cex :
    (fio_kv_put ⟨⟨"p", 3, 9⟩, 0, "t"⟩ ⟨1, some [42]⟩
        ⟨some [1, 2, 3], some ⟨0, 1, 3, 60, 7⟩⟩).map
      (fun c => c.gen_count) = some 0 ∧
    (fio_kv_put ⟨⟨"p", 3, 9⟩, 0, "t"⟩ ⟨1, some [42]⟩
        ⟨some [1, 2, 3], some ⟨0, 1, 3, 60, 7⟩⟩).map
      (fun c => c.gen_count) ≠ some 7 := by
  decide

/-- C4 (amended): whenever fio_kv_put reaches the device, the call
carries value_len and expiry taken from value.info, requests an
unconditional upsert (replace = true), addresses the pool and store of
the arguments, and passes the constant 0 as the generation-count
argument regardless of value.info.gen_count. -/
theorem fio_kv_put_device_call_fields (pool : FioKvPool) (key : FioKvKey)
    (value : FioKvValue) (info : KeyInfo) (c : NvmKvPutCall)
    (hinfo : value.info = some info)
    (hc : fio_kv_put pool key value = some c) :
    c.value_len = info.value_len ∧ c.expiry = info.expiry ∧
    c.replace = true ∧ c.gen_count = 0 ∧
    c.kv = pool.store.kv ∧ c.pool_id = pool.id ∧
    c.key_len = key.length := by
  unfold fio_kv_put at hc
  by_cases hb : 0 ≤ pool.id ∧ pool.id < (NVM_KV_MAX_POOLS : Int) ∧
      1 ≤ key.length ∧ key.length ≤ NVM_KV_MAX_KEY_SIZE
  · rw [if_pos hb] at hc
    cases hkb : key.bytes with
    | none => rw [hkb] at hc; exact absurd hc (by simp)
    | some kb =>
      rw [hkb] at hc
      cases hvd : value.data with
      | none => rw [hvd, hinfo] at hc; exact absurd hc (by simp)
      | some vd =>
        rw [hvd, hinfo] at hc
        simp only [Option.some.injEq] at hc
        rw [← hc]
        simp
  · rw [if_neg hb] at hc
    exact absurd hc (by simp)

/-- C4 witness: the amended theorem applied at a concrete put. -/
theorem fio_kv_put_device_call_fields_witness :
    ({ kv := 9, pool_id := 0, key := [42], key_len := 1, value := [1, 2, 3],
       value_len := 3, expiry := 60, replace := true,
       gen_count := 0 } : NvmKvPutCall).value_len =
        (⟨0, 1, 3, 60, 7⟩ : KeyInfo).value_len ∧
    ({ kv := 9, pool_id := 0, key := [42], key_len := 1, value := [1, 2, 3],
       value_len := 3, expiry := 60, replace := true,
       gen_count := 0 } : NvmKvPutCall).expiry =
        (⟨0, 1, 3, 60, 7⟩ : KeyInfo).expiry ∧
    ({ kv := 9, pool_id := 0, key := [42], key_len := 1, value := [1, 2, 3],
       value_len := 3, expiry := 60, replace := true,
       gen_count := 0 } : NvmKvPutCall).replace = true ∧
    ({ kv := 9, pool_id := 0, key := [42], key_len := 1, value := [1, 2, 3],
       value_len := 3, expiry := 60, replace := true,
       gen_count := 0 } : NvmKvPutCall).gen_count = 0 ∧
    ({ kv := 9, pool_id := 0, key := [42], key_len := 1, value := [1, 2, 3],
       value_len := 3, expiry := 60, replace := true,
       gen_count := 0 } : NvmKvPutCall).kv =
        (⟨⟨"p", 3, 9⟩, 0, "t"⟩ : FioKvPool).store.kv ∧
    ({ kv := 9, pool_id := 0, key := [42], key_len := 1, value := [1, 2, 3],
       value_len := 3, expiry := 60, replace := true,
       gen_count := 0 } : NvmKvPutCall).pool_id =
        (⟨⟨"p", 3, 9⟩, 0, "t"⟩ : FioKvPool).id ∧
    ({ kv := 9, pool_id := 0, key := [42], key_len := 1, value := [1, 2, 3],
       value_len := 3, expiry := 60, replace := true,
       gen_count := 0 } : NvmKvPutCall).key_len =
        (⟨1, some [42]⟩ : FioKvKey).length :=
  fio_kv_put_device_call_fields ⟨⟨"p", 3, 9⟩, 0, "t"⟩ ⟨1, some [42]⟩
    ⟨some [1, 2, 3], some ⟨0, 1, 3, 60, 7⟩⟩ ⟨0, 1, 3, 60, 7⟩ _
    (by decide) (by decide)

theorem prepare_iovec_sound (okey : Option FioKvKey)
    (oval : Option FioKvValue) (io : NvmKvIovec)
    (h : _fio_kv_prepare_iovec okey oval = some io) :
    fio_kv_key_ok okey ∧ fio_kv_value_ok oval := by
  match okey, oval with
  | none, _ => exact Option.noConfusion h
  | some k, none => exact Option.noConfusion h
  | some k, some v =>
    simp only [_fio_kv_prepare_iovec] at h
    by_cases hlen : 1 ≤ k.length ∧ k.length ≤ NVM_KV_MAX_KEY_SIZE
    · rw [if_pos hlen] at h
      cases hkb : k.bytes with
      | none => rw [hkb] at h; exact Option.noConfusion h
      | some kb =>
        cases hvd : v.data with
        | none => rw [hkb, hvd] at h; exact Option.noConfusion h
        | some vd =>
          cases hvi : v.info with
          | none => rw [hkb, hvd, hvi] at h; exact Option.noConfusion h
          | some info =>
            exact ⟨⟨k, kb, rfl, hkb, hlen.1, hlen.2⟩,
              ⟨v, vd, info, rfl, hvd, hvi⟩⟩
    · rw [if_neg hlen] at h
      exact Option.noConfusion h

theorem prepare_entries_sound :
    ∀ (keys : List (Option FioKvKey)) (values : List (Option FioKvValue))
      (v : List NvmKvIovec),
      _fio_kv_prepare_entries keys values = some v →
      (∀ ok ∈ keys, fio_kv_key_ok ok) ∧ (∀ ov ∈ values, fio_kv_value_ok ov)
  | [], [], _, _ => ⟨by simp, by simp⟩
  | [], _ :: _, v, h => by simp [_fio_kv_prepare_entries] at h
  | _ :: _, [], v, h => by simp [_fio_kv_prepare_entries] at h
  | okey :: ks, oval :: vs, v, h => by
    unfold _fio_kv_prepare_entries at h
    cases hio : _fio_kv_prepare_iovec okey oval with
    | none => rw [hio] at h; exact absurd h (by simp)
    | some io =>
      rw [hio] at h
      cases hrest : _fio_kv_prepare_entries ks vs with
      | none => rw [hrest] at h; exact absurd h (by simp)
      | some rest =>
        have hhd := prepare_iovec_sound okey oval io hio
        have htl := prepare_entries_sound ks vs rest hrest
        refine ⟨?_, ?_⟩
        · intro ok hok
          rcases List.mem_cons.mp hok with h1 | h1
          · exact h1 ▸ hhd.1
          · exact htl.1 ok h1
        · intro ov hov
          rcases List.mem_cons.mp hov with h1 | h1
          · exact h1 ▸ hhd.2
          · exact htl.2 ov h1

/-- C5: whenever fio_kv_batch_put completes without an assertion abort
(result is some, whether reporting success or failure), the key array
was non-empty and every key and value entry individually passed the
validation (non-null key with in-bounds length and non-null bytes,
non-null value with non-null data and info) before the single device
batch call; contrapositively, a batch holding an entry that violates the
length bound can never return at all, let alone report success with the
entry silently dropped. -/
theorem fio_kv_batch_put_validates_entries
    (dev : List NvmKvIovec → Int × List NvmKvIovec) (pool : FioKvPool)
    (keys : List (Option FioKvKey)) (values : List (Option FioKvValue))
    (r : Bool × List (Option FioKvValue))
    (h : fio_kv_batch_put dev pool keys values = some r) :
    keys ≠ [] ∧ (∀ ok ∈ keys, fio_kv_key_ok ok) ∧
    (∀ ov ∈ values, fio_kv_value_ok ov) := by
  unfold fio_kv_batch_put at h
  by_cases hb : 0 ≤ pool.id ∧ pool.id < (NVM_KV_MAX_POOLS : Int)
  · rw [if_pos hb] at h
    cases hprep : _fio_kv_prepare_batch keys values with
    | none => rw [hprep] at h; exact absurd h (by simp)
    | some v =>
      unfold _fio_kv_prepare_batch at hprep
      by_cases hk0 : keys.length = 0
      · rw [if_pos hk0] at hprep; exact absurd hprep (by simp)
      · rw [if_neg hk0] at hprep
        have := prepare_entries_sound keys values v hprep
        exact ⟨fun he => hk0 (by simp [he]), this.1, this.2⟩
  · rw [if_neg hb] at h
    exact absurd h (by simp)

/-- C5 witness: the theorem applied at a concrete one-entry batch. -/
theorem fio_kv_batch_put_validates_entries_witness :
    ([some ⟨1, some [42]⟩] : List (Option FioKvKey)) ≠ [] ∧
    (∀ ok ∈ ([some ⟨1, some [42]⟩] : List (Option FioKvKey)),
      fio_kv_key_ok ok) ∧
    (∀ ov ∈ ([some ⟨some [1], some ⟨0, 1, 1, 0, 0⟩⟩] :
        List (Option FioKvValue)), fio_kv_value_ok ov) :=
  fio_kv_batch_put_validates_entries (fun v => (0, v)) ⟨⟨"p", 3, 9⟩, 0, "t"⟩
    [some ⟨1, some [42]⟩] [some ⟨some [1], some ⟨0, 1, 1, 0, 0⟩⟩]
    (true, [some ⟨some [1], some ⟨0, 1, 1, 0, 0⟩⟩]) (by decide)

/-- C6 (counterexample): a one-entry batch put against a device that
succeeds and bumps the gen_count of every iovec entry in its response.
The prepared entry the device returns carries gen_count 6, yet the
value array after fio_kv_batch_put still carries the input metadata
record with gen_count 5: the metadata was not repopulated from the
device response. -/
theorem fio_kv_batch_put_no_repopulate_cex :
    fio_kv_batch_put
        (fun v => (0, v.map (fun io => { io with gen_count := io.gen_count + 1 })))
        ⟨⟨"p", 3, 9⟩, 0, "t"⟩ [some ⟨1, some [42]⟩]
        [some ⟨some [1, 2, 3], some ⟨0, 1, 3, 60, 5⟩⟩] =
      some (true, [some ⟨some [1, 2, 3], some ⟨0, 1, 3, 60, 5⟩⟩]) ∧
    (_fio_kv_prepare_batch [some ⟨1, some [42]⟩]
        [some ⟨some [1, 2, 3], some ⟨0, 1, 3, 60, 5⟩⟩]).map
      (fun v => (v.map (fun io => { io with gen_count := io.gen_count + 1 })).map
        (fun io => io.gen_count)) = some [6] := by
  constructor <;> decide

/-- C6 (amended): fio_kv_batch_put never writes the device response back
into the value metadata records: whatever the device does to the iovec
array, the caller-visible values array after the call is exactly the
input array (the updated iovec array is freed without copy-back, and
the JNI binding then copies these unchanged records to the Java side). -/
theorem fio_kv_batch_put_info_unchanged
    (dev : List NvmKvIovec → Int × List NvmKvIovec) (pool : FioKvPool)
    (keys : List (Option FioKvKey)) (values : List (Option FioKvValue))
    (r : Bool × List (Option FioKvValue))
    (h : fio_kv_batch_put dev pool keys values = some r) :
    r.2 = values := by
  unfold fio_kv_batch_put at h
  by_cases hb : 0 ≤ pool.id ∧ pool.id < (NVM_KV_MAX_POOLS : Int)
  · rw [if_pos hb] at h
    cases hprep : _fio_kv_prepare_batch keys values with
    | none => rw [hprep] at h; exact Option.noConfusion h
    | some v =>
      rw [hprep] at h
      simp only [Option.some.injEq] at h
      rw [← h]
  · rw [if_neg hb] at h
    exact Option.noConfusion h

/-- C6 witness: the amended theorem applied at a concrete batch. -/
theorem fio_kv_batch_put_info_unchanged_witness :
    ((false, [some ⟨some [7], some ⟨0, 1, 1, 9, 2⟩⟩]) :
        Bool × List (Option FioKvValue)).2 =
      [some ⟨some [7], some ⟨0, 1, 1, 9, 2⟩⟩] :=
  fio_kv_batch_put_info_unchanged (fun v => (1, v)) ⟨⟨"p", 3, 9⟩, 0, "t"⟩
    [some ⟨1, some [8]⟩] [some ⟨some [7], some ⟨0, 1, 1, 9, 2⟩⟩]
    (false, [some ⟨some [7], some ⟨0, 1, 1, 9, 2⟩⟩]) (by decide)

/-- C7: for a valid pool and key, fio_kv_exists always reaches the
device (the substituted scratch record means the device call never sees
a NULL metadata pointer and never takes its failure branch), passes the
device tri-state result through unchanged — so present, absent and
error stay distinguished exactly as the device reports them — and the
tri-state is identical whether the caller passed no info record or a
caller-supplied one (which is then filled with the device metadata). -/
theorem fio_kv_exists_tristate_null_info
    (devres : Int → Int → List Nat → Nat → Int × KeyInfo)
    (pool : FioKvPool) (key : FioKvKey) (kb : List Nat) (i0 : KeyInfo)
    (hkb : key.bytes = some kb) (hid0 : 0 ≤ pool.id)
    (hid1 : pool.id < (NVM_KV_MAX_POOLS : Int)) (hk1 : 1 ≤ key.length)
    (hk2 : key.length ≤ NVM_KV_MAX_KEY_SIZE) :
    fio_kv_exists devres pool key none =
      some ((devres pool.store.kv pool.id kb key.length).1, none) ∧
    fio_kv_exists devres pool key (some i0) =
      some ((devres pool.store.kv pool.id kb key.length).1,
        some (devres pool.store.kv pool.id kb key.length).2) := by
  constructor <;>
  · unfold fio_kv_exists
    rw [if_pos ⟨hid0, hid1, hk1, hk2⟩, hkb]
    simp [nvm_kv_exists_model]

/-- C7 witness: the theorem applied at a concrete pool, key and device. -/
theorem fio_kv_exists_tristate_null_info_witness :
    fio_kv_exists (fun _ _ _ _ => (1, ⟨0, 1, 3, 60, 5⟩))
        ⟨⟨"p", 3, 9⟩, 0, "t"⟩ ⟨1, some [42]⟩ none =
      some (((fun (_ : Int) (_ : Int) (_ : List Nat) (_ : Nat) =>
          ((1 : Int), (⟨0, 1, 3, 60, 5⟩ : KeyInfo))) 9 0 [42] 1).1, none) ∧
    fio_kv_exists (fun _ _ _ _ => (1, ⟨0, 1, 3, 60, 5⟩))
        ⟨⟨"p", 3, 9⟩, 0, "t"⟩ ⟨1, some [42]⟩ (some ⟨0, 0, 0, 0, 0⟩) =
      some (((fun (_ : Int) (_ : Int) (_ : List Nat) (_ : Nat) =>
          ((1 : Int), (⟨0, 1, 3, 60, 5⟩ : KeyInfo))) 9 0 [42] 1).1,
        some ((fun (_ : Int) (_ : Int) (_ : List Nat) (_ : Nat) =>
          ((1 : Int), (⟨0, 1, 3, 60, 5⟩ : KeyInfo))) 9 0 [42] 1).2) :=
  fio_kv_exists_tristate_null_info (fun _ _ _ _ => (1, ⟨0, 1, 3, 60, 5⟩))
    ⟨⟨"p", 3, 9⟩, 0, "t"⟩ ⟨1, some [42]⟩ [42] ⟨0, 0, 0, 0, 0⟩
    (by decide) (by decide) (by decide) (by decide) (by decide)

/-- C9: once fio_kv_next has returned false (the iterator is exhausted),
every later fio_kv_next call on the same iterator, after any number of
intermediate calls in a single-threaded sequence without concurrent
mutation, again returns false with the cursor state unchanged — it
keeps reporting exhaustion rather than erroring. -/
theorem fio_kv_next_exhaustion_stable (pool : FioKvPool) (iterator : Int)
    (it it2 : IterState)
    (h : fio_kv_next pool iterator it = some (false, it2)) :
    ∀ n : Nat, fio_kv_next_iter pool iterator n it2 = some (false, it2) := by
  unfold fio_kv_next at h
  by_cases hb : 0 ≤ pool.id ∧ pool.id < (NVM_KV_MAX_POOLS : Int) ∧
      0 ≤ iterator
  · rw [if_pos hb] at h
    simp only [Option.some.injEq, Prod.mk.injEq] at h
    have hrem : it.remaining = [] := by
      cases hr : it.remaining with
      | nil => rfl
      | cons x xs =>
        exfalso
        have := h.1
        rw [nvm_kv_next_model, hr] at this
        simp at this
    have hit2 : it2 = it := by
      have := h.2
      rw [nvm_kv_next_model, hrem] at this
      exact this.symm
    have hstep : fio_kv_next pool iterator it2 = some (false, it2) := by
      unfold fio_kv_next
      rw [if_pos hb, nvm_kv_next_model, hit2, hrem]
      simp
    intro n
    induction n with
    | zero => exact hstep
    | succ m ih =>
      unfold fio_kv_next_iter
      rw [hstep]
      exact ih
  · rw [if_neg hb] at h
    exact Option.noConfusion h

/-- C9 witness: the theorem applied to a concrete exhausted iterator,
with three further calls. -/
theorem fio_kv_next_exhaustion_stable_witness :
    fio_kv_next_iter ⟨⟨"p", 3, 9⟩, 0, "t"⟩ 0 3 ⟨[]⟩ = some (false, ⟨[]⟩) :=
  fio_kv_next_exhaustion_stable ⟨⟨"p", 3, 9⟩, 0, "t"⟩ 0 ⟨[]⟩ ⟨[]⟩
    (by decide) 3
